import Mathlib

/-!
Verification of the A2A coordination server against its specification.

Shallow embedding of the Python sources:
  * `src/a2a_server/task_manager.py`    (`TaskManager`)
  * `src/a2a_server/message_broker.py`  (`InMemoryMessageBroker`)
  * `src/a2a_server/opencode_bridge.py` (`OpenCodeBridge`)
  * `src/a2a_server/monitor_api.py`     (worker REST endpoints)
  * `src/a2a_server/server.py`          (`A2AServer` call sites)

Python dicts are modelled as association lists with insertion-order
preserving update (matching CPython dict semantics); timestamps
(`datetime.utcnow()`) are modelled as natural-number clock values passed
explicitly to each operation; handler objects are abstracted as natural
numbers (only their identity matters to the claims under study).
-/

namespace A2A

/-- Dict lookup: first binding of the key (keys are unique by construction,
since `insertA` replaces in place). -/
def lookupA {α : Type} : List (String × α) → String → Option α
  | [], _ => none
  | p :: rest, k => if p.1 = k then some p.2 else lookupA rest k

/-- Dict assignment `d[k] = v`: replace the binding in place when the key is
present (CPython keeps the key position), otherwise append the new binding. -/
def insertA {α : Type} : List (String × α) → String → α → List (String × α)
  | [], k, v => [(k, v)]
  | p :: rest, k, v => if p.1 = k then (k, v) :: rest else p :: insertA rest k v

theorem lookupA_insertA_self {α : Type} (m : List (String × α)) (k : String) (v : α) :
    lookupA (insertA m k v) k = some v := by
  induction m with
  | nil => simp [insertA, lookupA]
  | cons p rest ih =>
    by_cases h : p.1 = k
    · simp [insertA, h, lookupA]
    · simp [insertA, h, lookupA, ih]

theorem insertA_lookupA_self {α : Type} {m : List (String × α)} {k : String} {v : α}
    (h : lookupA m k = some v) : insertA m k v = m := by
  induction m with
  | nil => simp [lookupA] at h
  | cons p rest ih =>
    by_cases hk : p.1 = k
    · simp only [lookupA, if_pos hk] at h
      have hp : p = (k, v) := by
        cases p
        simp_all
      simp [insertA, hk, hp]
    · simp only [lookupA, if_neg hk] at h
      simp [insertA, hk, ih h]

/-! ## Task lifecycle manager (`src/a2a_server/task_manager.py`)

The data shapes come from `a2a_server.models`, which is imported by
`task_manager.py` but whose file is not part of the available sources. -/

/-- Modelled from the spec: `models.TaskStatus`, §3 "Task":
status ∈ {PENDING, WORKING, COMPLETED, CANCELLED, FAILED}. -/
inductive TaskStatus where
  | pending
  | working
  | completed
  | cancelled
  | failed
deriving DecidableEq

/-- Spec §3: terminal statuses are COMPLETED, CANCELLED, FAILED. -/
def TaskStatus.isTerminal : TaskStatus → Bool
  | .completed => true
  | .cancelled => true
  | .failed => true
  | _ => false

/-- Modelled from the spec: `models.Part` — `{type, content}`. -/
structure Part where
  ptype : String
  content : String
deriving DecidableEq

/-- Modelled from the spec: `models.Message` — ordered parts. -/
structure Message where
  parts : List Part
deriving DecidableEq

/-- Modelled from the spec: `models.Task` — the fields that
`TaskManager.create_task` populates (progress is a float in the source,
modelled as a rational since it is only stored and passed through). -/
structure Task where
  id : String
  status : TaskStatus
  created_at : Nat
  updated_at : Nat
  progress : Option ℚ
  title : Option String
  description : Option String
deriving DecidableEq

/-- Modelled from the spec: `models.TaskStatusUpdateEvent{task, message?, final}`. -/
structure TaskStatusUpdateEvent where
  task : Task
  message : Option Message
  final : Bool
deriving DecidableEq

namespace TaskManager

/-- `TaskManager._tasks`: the task table. -/
structure State where
  tasks : List (String × Task)
deriving DecidableEq

/-- `TaskManager.create_task` (task_manager.py:25-48): build a fresh PENDING
task and store it with `self._tasks[task_id] = task` — an unconditional dict
assignment, with no check that the id is unused. `fresh_id` stands for the
generated `uuid.uuid4()` used when no `task_id` is supplied. -/
def create_task (s : State) (title description : Option String)
    (task_id : Option String) (fresh_id : String) (now : Nat) : Task × State :=
  let tid := task_id.getD fresh_id
  let task : Task :=
    { id := tid, status := .pending, created_at := now, updated_at := now,
      progress := none, title := title, description := description }
  (task, { tasks := insertA s.tasks tid task })

/-- `TaskManager.update_task_status` (task_manager.py:55-85): look the task up;
if absent return None; otherwise overwrite `status`, refresh `updated_at`, set
`progress` only when one is given, and build the update event with the
caller-supplied `final` flag. There is no guard on the task's current status. -/
def update_task_status (s : State) (task_id : String) (status : TaskStatus)
    (message : Option Message) (progress : Option ℚ) (final : Bool) (now : Nat) :
    Option (Task × TaskStatusUpdateEvent) × State :=
  match lookupA s.tasks task_id with
  | none => (none, s)
  | some t =>
    let t' : Task :=
      { t with
        status := status
        updated_at := now
        progress := match progress with | some p => some p | none => t.progress }
    let event : TaskStatusUpdateEvent := { task := t', message := message, final := final }
    (some (t', event), { tasks := insertA s.tasks task_id t' })

/-- `TaskManager.cancel_task` (task_manager.py:87-89). -/
def cancel_task (s : State) (task_id : String) (now : Nat) :
    Option (Task × TaskStatusUpdateEvent) × State :=
  update_task_status s task_id .cancelled none none true now

end TaskManager

/-- The `(status, final)` pairs at every call site of
`TaskManager.update_task_status` in the repository:
server.py:225 and :389 (initial WORKING, default `final=False`),
server.py:397 (WORKING progress update, default `final=False`),
server.py:233 and :407 (COMPLETED, `final=True`),
server.py:413 (FAILED, `final=True`),
task_manager.py:89 / redis_task_manager.py:242 (CANCELLED, `final=True`). -/
inductive ServerCall : TaskStatus → Bool → Prop where
  | send_working : ServerCall .working false
  | send_completed : ServerCall .completed true
  | stream_working : ServerCall .working false
  | stream_progress : ServerCall .working false
  | stream_completed : ServerCall .completed true
  | stream_failed : ServerCall .failed true
  | cancel : ServerCall .cancelled true

/-- A reachable manager state holding the single task `"t"` in terminal
status COMPLETED: create it, then complete it. -/
def c1_s0 : TaskManager.State :=
  (TaskManager.create_task ⟨[]⟩ none none (some "t") "t" 0).2

def c1_s1 : TaskManager.State :=
  (TaskManager.update_task_status c1_s0 "t" .completed none none true 1).2

/-- Claim C1: terminal states of a `Task` are NOT absorbing in the code.
Starting from a task in terminal status COMPLETED, a further
`update_task_status` to WORKING changes the status to WORKING, and a further
`cancel_task` changes it to CANCELLED: `TaskManager.update_task_status` has no
guard on the current status, so the claimed invariant fails. -/
theorem C1_terminal_status_overwritten :
    (lookupA c1_s1.tasks "t").map Task.status = some TaskStatus.completed ∧
    (lookupA (TaskManager.update_task_status c1_s1 "t" .working none none false 2).2.tasks
        "t").map Task.status = some TaskStatus.working ∧
    (lookupA (TaskManager.cancel_task c1_s1 "t" 3).2.tasks "t").map Task.status =
      some TaskStatus.cancelled :=
  ⟨rfl, rfl, rfl⟩

/-- Claim C2: for every transition the server code actually performs (the
`ServerCall` relation enumerates the repository's call sites of
`update_task_status` together with the `final` flag each passes), the emitted
`TaskStatusUpdateEvent` has `final = true` iff the new status is terminal. -/
theorem C2_final_iff_terminal (s : TaskManager.State) (tid : String) (st : TaskStatus)
    (f : Bool) (msg : Option Message) (prog : Option ℚ) (now : Nat)
    (hcall : ServerCall st f) :
    ((TaskManager.update_task_status s tid st msg prog f now).1.map
        fun p => p.2.final) =
      ((TaskManager.update_task_status s tid st msg prog f now).1.map
        fun p => p.2.task.status.isTerminal) := by
  cases hlk : lookupA s.tasks tid with
  | none => simp [TaskManager.update_task_status, hlk]
  | some t => cases hcall <;> simp [TaskManager.update_task_status, hlk, TaskStatus.isTerminal]

def c2_s : TaskManager.State :=
  (TaskManager.create_task ⟨[]⟩ none none (some "t") "t" 0).2

/-- Concrete instance of C2: the streaming path's COMPLETED transition. -/
theorem C2_final_iff_terminal_witness :
    ((TaskManager.update_task_status c2_s "t" .completed none none true 5).1.map
        fun p => p.2.final) =
      ((TaskManager.update_task_status c2_s "t" .completed none none true 5).1.map
        fun p => p.2.task.status.isTerminal) :=
  C2_final_iff_terminal c2_s "t" .completed true none none 5 ServerCall.stream_completed

/-- Claim C9: `create_task` with an explicitly supplied `task_id` already in
the table silently replaces the stored task with a fresh PENDING one whose
`created_at`/`updated_at` are the current time and whose title and description
are exactly the (possibly absent) arguments — nothing of the old task is
carried over, and no error is possible (the operation is total). -/
theorem C9_create_task_overwrites (s : TaskManager.State) (old : Task)
    (tid fresh : String) (title description : Option String) (now : Nat)
    (_hold : lookupA s.tasks tid = some old) :
    (TaskManager.create_task s title description (some tid) fresh now).1 =
      { id := tid, status := .pending, created_at := now, updated_at := now,
        progress := none, title := title, description := description } ∧
    lookupA (TaskManager.create_task s title description (some tid) fresh now).2.tasks tid =
      some ({ id := tid, status := .pending, created_at := now, updated_at := now,
              progress := none, title := title, description := description } : Task) :=
  ⟨rfl, lookupA_insertA_self ..⟩

def c9_old : Task :=
  (TaskManager.create_task ⟨[]⟩ (some "Old title") (some "Old text") (some "t") "t" 0).1

def c9_s : TaskManager.State :=
  (TaskManager.create_task ⟨[]⟩ (some "Old title") (some "Old text") (some "t") "t" 0).2

/-- Concrete instance of C9: re-creating id `"t"` over an existing task. -/
theorem C9_create_task_overwrites_witness :
    (TaskManager.create_task c9_s none none (some "t") "u" 7).1 =
      { id := "t", status := .pending, created_at := 7, updated_at := 7,
        progress := none, title := none, description := none } ∧
    lookupA (TaskManager.create_task c9_s none none (some "t") "u" 7).2.tasks "t" =
      some ({ id := "t", status := .pending, created_at := 7, updated_at := 7,
              progress := none, title := none, description := none } : Task) :=
  C9_create_task_overwrites c9_s c9_old "t" "u" none none 7 rfl

/-! ## In-memory pub/sub broker
(`src/a2a_server/message_broker.py`, class `InMemoryMessageBroker`) -/

namespace InMemoryMessageBroker

/-- `InMemoryMessageBroker.__init__` (message_broker.py:269-274): the
`_subscribers` dict and the `_running` flag. Handlers are abstracted by an
identity (`Nat`); the agent-card registry field is independent of these two
and is not touched by the operations under study. -/
structure State where
  running : Bool
  subscribers : List (String × List Nat)
deriving DecidableEq

def initState : State := { running := false, subscribers := [] }

/-- `start` (message_broker.py:278-281): sets `_running`. -/
def start (s : State) : State := { s with running := true }

/-- `stop` (message_broker.py:283-287): clears `_running` and the table. -/
def stop (_s : State) : State := { running := false, subscribers := [] }

/-- `self._subscribers.get(event_type, [])`. -/
def subscribersFor (s : State) (event_type : String) : List Nat :=
  (lookupA s.subscribers event_type).getD []

/-- `publish_event` (message_broker.py:313-326): when `_running` is false,
return immediately without delivering; otherwise invoke every handler
subscribed to the type, in list order (per-handler exceptions are swallowed).
The value is the list of handlers this publish invokes. -/
def publish_event (s : State) (event_type : String) : List Nat :=
  if s.running then subscribersFor s event_type else []

/-- `subscribe_to_events` (message_broker.py:347-355): create the entry on
first use, then append the handler — with no check of `_running`. -/
def subscribe_to_events (s : State) (event_type : String) (handler : Nat) : State :=
  { s with subscribers :=
      insertA s.subscribers event_type (subscribersFor s event_type ++ [handler]) }

/-- `unsubscribe_from_events` (message_broker.py:357-367): if the type has an
entry, `list.remove` drops the first occurrence of the handler; when the
handler is absent the ValueError is swallowed and nothing changes. -/
def unsubscribe_from_events (s : State) (event_type : String) (handler : Nat) : State :=
  match lookupA s.subscribers event_type with
  | none => s
  | some hs => { s with subscribers := insertA s.subscribers event_type (hs.erase handler) }

theorem subscribersFor_unsubscribe (s : State) (ty : String) (h : Nat) :
    subscribersFor (unsubscribe_from_events s ty h) ty = (subscribersFor s ty).erase h := by
  cases hlk : lookupA s.subscribers ty with
  | none => simp [unsubscribe_from_events, hlk, subscribersFor]
  | some hs =>
    simp [unsubscribe_from_events, hlk, subscribersFor, lookupA_insertA_self]

theorem unsubscribe_not_mem (s : State) (ty : String) (h : Nat)
    (hmem : h ∉ subscribersFor s ty) : unsubscribe_from_events s ty h = s := by
  cases hlk : lookupA s.subscribers ty with
  | none => simp [unsubscribe_from_events, hlk]
  | some hs =>
    have hhs : h ∉ hs := by
      simpa [subscribersFor, hlk] using hmem
    simp [unsubscribe_from_events, hlk, List.erase_of_not_mem hhs,
      insertA_lookupA_self hlk]

end InMemoryMessageBroker

def c7_s : InMemoryMessageBroker.State :=
  InMemoryMessageBroker.subscribe_to_events
    (InMemoryMessageBroker.subscribe_to_events
      (InMemoryMessageBroker.start InMemoryMessageBroker.initState) "e" 0) "e" 0

/-- Claim C7 fails as stated: a handler subscribed twice to the same type is
still invoked by a publish after one `unsubscribe_from_events`, because
`list.remove` only drops the first occurrence. -/
theorem C7_unsubscribed_handler_still_invoked :
    0 ∈ InMemoryMessageBroker.publish_event
      (InMemoryMessageBroker.unsubscribe_from_events c7_s "e" 0) "e" := by
  decide

/-- Claim C7, amended: provided the handler occurs at most once in the
subscriber list of the type (in particular when it was subscribed at most
once), a publish after `unsubscribe_from_events` never invokes it; and
unsubscribing a handler that is not subscribed leaves the state exactly as it
was, so a second unsubscribe of the same handler is a no-op. -/
theorem C7_unsubscribe_removes_handler (s : InMemoryMessageBroker.State)
    (ty : String) (h : Nat)
    (hcount : (InMemoryMessageBroker.subscribersFor s ty).count h ≤ 1) :
    h ∉ InMemoryMessageBroker.publish_event
        (InMemoryMessageBroker.unsubscribe_from_events s ty h) ty ∧
    (h ∉ InMemoryMessageBroker.subscribersFor s ty →
      InMemoryMessageBroker.unsubscribe_from_events s ty h = s) ∧
    InMemoryMessageBroker.unsubscribe_from_events
        (InMemoryMessageBroker.unsubscribe_from_events s ty h) ty h =
      InMemoryMessageBroker.unsubscribe_from_events s ty h := by
  have herase : h ∉ (InMemoryMessageBroker.subscribersFor s ty).erase h := by
    intro hmem
    have hpos := List.count_pos_iff.mpr hmem
    rw [List.count_erase_self] at hpos
    omega
  refine ⟨?_, ?_, ?_⟩
  · intro hmem
    apply herase
    unfold InMemoryMessageBroker.publish_event at hmem
    rw [← InMemoryMessageBroker.subscribersFor_unsubscribe s ty h]
    by_cases hrun : (InMemoryMessageBroker.unsubscribe_from_events s ty h).running
    · simpa [hrun] using hmem
    · simp [hrun] at hmem
  · exact InMemoryMessageBroker.unsubscribe_not_mem s ty h
  · apply InMemoryMessageBroker.unsubscribe_not_mem
    rw [InMemoryMessageBroker.subscribersFor_unsubscribe s ty h]
    exact herase

def c7w_s : InMemoryMessageBroker.State :=
  InMemoryMessageBroker.subscribe_to_events
    (InMemoryMessageBroker.start InMemoryMessageBroker.initState) "e" 1

/-- Concrete instance of the amended C7: a singly-subscribed handler is not
invoked after unsubscribing. -/
theorem C7_unsubscribe_removes_handler_witness :
    1 ∉ InMemoryMessageBroker.publish_event
      (InMemoryMessageBroker.unsubscribe_from_events c7w_s "e" 1) "e" :=
  (C7_unsubscribe_removes_handler c7w_s "e" 1 (by decide)).1

/-- Claim C10: `publish_event` on a broker that is not running (before
`start`, including the initial state, or after `stop`) delivers to no handler
and returns normally (the operation is total); `subscribe_to_events` appends
the handler to the type's subscriber list regardless of the running flag. -/
theorem C10_publish_needs_running (s : InMemoryMessageBroker.State)
    (ty : String) (h : Nat) :
    (s.running = false → InMemoryMessageBroker.publish_event s ty = []) ∧
    InMemoryMessageBroker.publish_event InMemoryMessageBroker.initState ty = [] ∧
    InMemoryMessageBroker.publish_event (InMemoryMessageBroker.stop s) ty = [] ∧
    InMemoryMessageBroker.subscribersFor
        (InMemoryMessageBroker.subscribe_to_events s ty h) ty =
      InMemoryMessageBroker.subscribersFor s ty ++ [h] := by
  refine ⟨?_, ?_, ?_, ?_⟩
  · intro hrun
    simp [InMemoryMessageBroker.publish_event, hrun]
  · rfl
  · rfl
  · simp [InMemoryMessageBroker.subscribe_to_events, InMemoryMessageBroker.subscribersFor,
      lookupA_insertA_self]

/-- Concrete instance of C10: publishing on a stopped broker holding a
subscriber entry delivers nothing. -/
theorem C10_publish_needs_running_witness :
    InMemoryMessageBroker.publish_event
      { running := false, subscribers := [("e", [3])] } "e" = [] :=
  (C10_publish_needs_running { running := false, subscribers := [("e", [3])] } "e" 3).1 rfl

/-! ## Durable work queue (`src/a2a_server/opencode_bridge.py`) and the
worker REST endpoint `PUT /tasks/\x7bid\x7d/status` (`src/a2a_server/monitor_api.py`) -/

/-- `AgentTaskStatus` (opencode_bridge.py:43-50). -/
inductive AgentTaskStatus where
  | pending
  | assigned
  | running
  | completed
  | failed
  | cancelled
deriving DecidableEq

/-- The `AgentTaskStatus(update.status)` enum construction performed by the
endpoint (monitor_api.py:2031-2034): parse the wire value, or fail. -/
def AgentTaskStatus.ofValue? : String → Option AgentTaskStatus
  | "pending" => some .pending
  | "assigned" => some .assigned
  | "running" => some .running
  | "completed" => some .completed
  | "failed" => some .failed
  | "cancelled" => some .cancelled
  | _ => none

/-- `AgentTask` (opencode_bridge.py:53-69); timestamps as clock values,
metadata as an association list. -/
structure AgentTask where
  id : String
  codebase_id : String
  title : String
  prompt : String
  agent_type : String
  status : AgentTaskStatus
  priority : Int
  created_at : Nat
  started_at : Option Nat
  completed_at : Option Nat
  result : Option String
  error : Option String
  session_id : Option String
  metadata : List (String × String)
deriving DecidableEq

namespace OpenCodeBridge

/-- `OpenCodeBridge` fields used by the task-queue operations:
`_codebases` (keyed registry, only ids matter here), `_tasks`, and
`_codebase_tasks`. -/
structure State where
  codebases : List String
  tasks : List (String × AgentTask)
  codebase_tasks : List (String × List String)
deriving DecidableEq

/-- `OpenCodeBridge.create_task` (opencode_bridge.py:873-913): fail when the
codebase is unknown; otherwise store a fresh PENDING task under a generated
id and append the id to the codebase's task list. -/
def create_task (s : State) (codebase_id title prompt agent_type : String)
    (priority : Int) (metadata : List (String × String)) (fresh_id : String)
    (now : Nat) : Option AgentTask × State :=
  if codebase_id ∈ s.codebases then
    let task : AgentTask :=
      { id := fresh_id, codebase_id := codebase_id, title := title, prompt := prompt,
        agent_type := agent_type, status := .pending, priority := priority,
        created_at := now, started_at := none, completed_at := none,
        result := none, error := none, session_id := none, metadata := metadata }
    (some task,
      { s with
          tasks := insertA s.tasks fresh_id task
          codebase_tasks := insertA s.codebase_tasks codebase_id
            ((lookupA s.codebase_tasks codebase_id).getD [] ++ [fresh_id]) })
  else (none, s)

/-- `OpenCodeBridge.update_task_status` (opencode_bridge.py:945-974): look the
task up; if absent return None; otherwise set the new status unconditionally
(no transition check), stamp `started_at` on RUNNING and `completed_at` on a
terminal status, and store `result`/`error` only when truthy (Python
`if result:` skips both None and the empty string). -/
def update_task_status (s : State) (task_id : String) (status : AgentTaskStatus)
    (result error : Option String) (now : Nat) : Option AgentTask × State :=
  match lookupA s.tasks task_id with
  | none => (none, s)
  | some t =>
    let t1 : AgentTask := { t with status := status }
    let t2 : AgentTask :=
      if status = .running then { t1 with started_at := some now }
      else if status = .completed ∨ status = .failed ∨ status = .cancelled then
        { t1 with completed_at := some now }
      else t1
    let t3 : AgentTask :=
      match result with
      | some r => if r = "" then t2 else { t2 with result := some r }
      | none => t2
    let t4 : AgentTask :=
      match error with
      | some e => if e = "" then t3 else { t3 with error := some e }
      | none => t3
    (some t4, { s with tasks := insertA s.tasks task_id t4 })

/-- `OpenCodeBridge.cancel_task` (opencode_bridge.py:976-993): succeed, set
CANCELLED and stamp `completed_at` only when the task exists and is PENDING
or ASSIGNED; otherwise return False without touching anything. -/
def cancel_task (s : State) (task_id : String) (now : Nat) : Bool × State :=
  match lookupA s.tasks task_id with
  | none => (false, s)
  | some t =>
    if t.status = .pending ∨ t.status = .assigned then
      let t' : AgentTask := { t with status := .cancelled, completed_at := some now }
      (true, { s with tasks := insertA s.tasks task_id t' })
    else (false, s)

end OpenCodeBridge

/-- The sort key of `list_tasks` (opencode_bridge.py:935):
`key=lambda t: (-t.priority, t.created_at)`, as the ascending order it
induces — higher priority first, then earlier `created_at` first. -/
def taskKeyLe (t u : AgentTask) : Prop :=
  u.priority < t.priority ∨ (t.priority = u.priority ∧ t.created_at ≤ u.created_at)

instance : DecidableRel taskKeyLe := fun _ _ => by
  unfold taskKeyLe
  infer_instance

instance : IsTotal AgentTask taskKeyLe :=
  ⟨fun a b => by unfold taskKeyLe; omega⟩

instance : IsTrans AgentTask taskKeyLe :=
  ⟨fun a b c hab hbc => by unfold taskKeyLe at *; omega⟩

theorem taskKeyLe_refl (t : AgentTask) : taskKeyLe t t :=
  Or.inr ⟨rfl, Nat.le_refl _⟩

namespace OpenCodeBridge

/-- The filtering stage of `OpenCodeBridge.list_tasks`
(opencode_bridge.py:920-933): all task records, filtered by codebase when a
non-empty `codebase_id` is given (Python truthiness: `if codebase_id:`),
then by status when one is given. -/
def filtered_tasks (s : State) (codebase_id : Option String)
    (status : Option AgentTaskStatus) : List AgentTask :=
  let tasks := s.tasks.map Prod.snd
  let tasks :=
    match codebase_id with
    | some cid => if cid = "" then tasks else tasks.filter fun t => t.codebase_id == cid
    | none => tasks
  match status with
  | some st => tasks.filter fun t => t.status == st
  | none => tasks

/-- `OpenCodeBridge.list_tasks` (opencode_bridge.py:920-938): the filtered
tasks sorted by `(-priority, created_at)` ascending. -/
def list_tasks (s : State) (codebase_id : Option String)
    (status : Option AgentTaskStatus) : List AgentTask :=
  List.insertionSort taskKeyLe (filtered_tasks s codebase_id status)

/-- `OpenCodeBridge.get_next_pending_task` (opencode_bridge.py:940-943). -/
def get_next_pending_task (s : State) (codebase_id : String) : Option AgentTask :=
  (list_tasks s (some codebase_id) (some .pending)).head?

end OpenCodeBridge

/-- The endpoint's reply: HTTP success carrying the task, or an error code
(400 for an invalid status value, 404 for an unknown task). -/
inductive ApiResult (α : Type) where
  | ok : α → ApiResult α
  | httpError : Nat → ApiResult α
deriving DecidableEq

/-- `PUT /tasks/\x7btask_id\x7d/status` (monitor_api.py:2023-2059): parse the
status value (400 on failure), apply `OpenCodeBridge.update_task_status`
(404 when the task is unknown), and answer success. The `worker_id` of the
request body is used only to refresh the transient worker-liveness table; it
is not recorded on the task and plays no part in the transition. -/
def put_task_status (s : OpenCodeBridge.State) (task_id status_value : String)
    (_worker_id : String) (result error : Option String) (now : Nat) :
    ApiResult AgentTask × OpenCodeBridge.State :=
  match AgentTaskStatus.ofValue? status_value with
  | none => (.httpError 400, s)
  | some st =>
    match OpenCodeBridge.update_task_status s task_id st result error now with
    | (none, s') => (.httpError 404, s')
    | (some t, s') => (.ok t, s')

/-- The status a caller observes in an endpoint reply, when it succeeded. -/
def apiStatus : ApiResult AgentTask → Option AgentTaskStatus
  | .ok t => some t.status
  | .httpError _ => none

/-- A queue holding the single PENDING task `"t1"` of codebase `"cb"`. -/
def c3_s1 : OpenCodeBridge.State :=
  (OpenCodeBridge.create_task { codebases := ["cb"], tasks := [], codebase_tasks := [] }
    "cb" "Fix build" "fix the build" "build" 0 [] "t1" 0).2

def c3_r1 : ApiResult AgentTask × OpenCodeBridge.State :=
  put_task_status c3_s1 "t1" "running" "workerA" none none 1

def c3_r2 : ApiResult AgentTask × OpenCodeBridge.State :=
  put_task_status c3_r1.2 "t1" "running" "workerB" none none 2

/-- Claim C3 fails: two workers claiming the same task through
`PUT /tasks/t1/status` both receive success with the task in RUNNING — the
endpoint performs an unconditional update (no `WHERE status=PENDING` guard),
so the second claim attempt does not fail, and no worker identity is recorded
on the task at all. -/
theorem C3_second_claim_also_succeeds :
    apiStatus c3_r1.1 = some .running ∧ apiStatus c3_r2.1 = some .running :=
  ⟨rfl, rfl⟩

def c4_s1 : OpenCodeBridge.State :=
  (OpenCodeBridge.create_task { codebases := ["cb"], tasks := [], codebase_tasks := [] }
    "cb" "Ship it" "do the work" "build" 0 [] "t1" 0).2

def c4_s2 : OpenCodeBridge.State :=
  (put_task_status c4_s1 "t1" "running" "w1" none none 1).2

def c4_s3 : OpenCodeBridge.State :=
  (put_task_status c4_s2 "t1" "completed" "w1" (some "ok") none 2).2

def c4_r : ApiResult AgentTask × OpenCodeBridge.State :=
  put_task_status c4_s3 "t1" "running" "w2" none none 3

/-- Claim C4 fails: the endpoint accepts any transition whose status string
parses. A task in terminal status COMPLETED is moved back to RUNNING — the
terminal state is exited, and RUNNING is entered from a state other than
PENDING/ASSIGNED. -/
theorem C4_terminal_state_exited :
    (lookupA c4_s3.tasks "t1").map AgentTask.status = some .completed ∧
    apiStatus c4_r.1 = some .running ∧
    (lookupA c4_r.2.tasks "t1").map AgentTask.status = some .running :=
  ⟨rfl, rfl, rfl⟩

/-- Claim C5: `cancel_task` returns True exactly when the task exists with
status PENDING or ASSIGNED; a False answer leaves the whole state untouched;
and a successful cancel stores the same record with status CANCELLED and
`completed_at` stamped. -/
theorem C5_cancel_task_characterized (s : OpenCodeBridge.State) (task_id : String)
    (now : Nat) :
    ((OpenCodeBridge.cancel_task s task_id now).1 = true ↔
      ∃ t, lookupA s.tasks task_id = some t ∧
        (t.status = .pending ∨ t.status = .assigned)) ∧
    ((OpenCodeBridge.cancel_task s task_id now).1 = false →
      (OpenCodeBridge.cancel_task s task_id now).2 = s) ∧
    (∀ t, lookupA s.tasks task_id = some t →
      t.status = .pending ∨ t.status = .assigned →
      lookupA (OpenCodeBridge.cancel_task s task_id now).2.tasks task_id =
        some ({ t with status := .cancelled, completed_at := some now } : AgentTask)) := by
  cases hlk : lookupA s.tasks task_id with
  | none =>
    refine ⟨?_, fun _ => ?_, fun t ht => ?_⟩
    · simp [OpenCodeBridge.cancel_task, hlk]
    · simp [OpenCodeBridge.cancel_task, hlk]
    · simp [hlk] at ht
  | some t =>
    by_cases hc : t.status = .pending ∨ t.status = .assigned
    · refine ⟨?_, fun hfalse => ?_, fun u hu hcu => ?_⟩
      · simp only [OpenCodeBridge.cancel_task, hlk, if_pos hc]
        exact ⟨fun _ => ⟨t, rfl, hc⟩, fun _ => trivial⟩
      · simp [OpenCodeBridge.cancel_task, hlk, if_pos hc] at hfalse
      · have hut : u = t := (Option.some_inj.mp hu).symm
        subst hut
        simp only [OpenCodeBridge.cancel_task, hlk, if_pos hc]
        exact lookupA_insertA_self ..
    · refine ⟨?_, fun _ => ?_, fun u hu hcu => ?_⟩
      · simp only [OpenCodeBridge.cancel_task, hlk, if_neg hc]
        constructor
        · intro h
          exact absurd h (by simp)
        · rintro ⟨u, hu, hcu⟩
          exact absurd hcu (Option.some_inj.mp hu ▸ hc)
      · simp [OpenCodeBridge.cancel_task, hlk, if_neg hc]
      · have hut : u = t := (Option.some_inj.mp hu).symm
        exact absurd hcu (hut ▸ hc)

def c5_s : OpenCodeBridge.State :=
  (OpenCodeBridge.create_task { codebases := ["cb"], tasks := [], codebase_tasks := [] }
    "cb" "Queued" "wait here" "build" 0 [] "t1" 0).2

def c5_t1 : AgentTask :=
  { id := "t1", codebase_id := "cb", title := "Queued", prompt := "wait here",
    agent_type := "build", status := .pending, priority := 0, created_at := 0,
    started_at := none, completed_at := none, result := none, error := none,
    session_id := none, metadata := [] }

/-- Concrete instance of C5: cancelling the pending task `"t1"` stores the
CANCELLED record with `completed_at` stamped. -/
theorem C5_cancel_task_characterized_witness :
    lookupA (OpenCodeBridge.cancel_task c5_s "t1" 9).2.tasks "t1" =
      some ({ c5_t1 with status := .cancelled, completed_at := some 9 } : AgentTask) :=
  (C5_cancel_task_characterized c5_s "t1" 9).2.2 c5_t1 rfl (Or.inl rfl)

theorem mem_filtered_pending (s : OpenCodeBridge.State) (cid : String) (hcid : cid ≠ "")
    (t : AgentTask) :
    t ∈ OpenCodeBridge.filtered_tasks s (some cid) (some .pending) ↔
      t ∈ s.tasks.map Prod.snd ∧ t.codebase_id = cid ∧ t.status = .pending := by
  simp [OpenCodeBridge.filtered_tasks, hcid, List.mem_filter, and_assoc]
  intro _ _
  exact and_comm

/-- Claim C6: `get_next_pending_task` answers nothing exactly when the
codebase has no PENDING task, and otherwise answers a PENDING task of that
codebase that every other PENDING task of the codebase follows in the order
"priority descending, then created_at ascending"; and `list_tasks` always
returns a permutation of the (filtered) task records sorted in that order. -/
theorem C6_next_pending_is_best (s : OpenCodeBridge.State) (cid : String)
    (hcid : cid ≠ "") :
    (OpenCodeBridge.get_next_pending_task s cid = none ↔
      ∀ t ∈ s.tasks.map Prod.snd, ¬(t.codebase_id = cid ∧ t.status = .pending)) ∧
    (∀ t, OpenCodeBridge.get_next_pending_task s cid = some t →
      t ∈ s.tasks.map Prod.snd ∧ t.codebase_id = cid ∧ t.status = .pending ∧
      ∀ u ∈ s.tasks.map Prod.snd, u.codebase_id = cid → u.status = .pending →
        taskKeyLe t u) ∧
    (∀ (cb : Option String) (st : Option AgentTaskStatus),
      List.Sorted taskKeyLe (OpenCodeBridge.list_tasks s cb st) ∧
      (OpenCodeBridge.list_tasks s cb st).Perm (OpenCodeBridge.filtered_tasks s cb st)) := by
  have hperm : (OpenCodeBridge.list_tasks s (some cid) (some .pending)).Perm
      (OpenCodeBridge.filtered_tasks s (some cid) (some .pending)) :=
    List.perm_insertionSort _ _
  have hsort : List.Sorted taskKeyLe (OpenCodeBridge.list_tasks s (some cid) (some .pending)) :=
    List.sorted_insertionSort _ _
  refine ⟨?_, ?_, fun cb st => ⟨List.sorted_insertionSort _ _, List.perm_insertionSort _ _⟩⟩
  · rw [OpenCodeBridge.get_next_pending_task, List.head?_eq_none_iff]
    constructor
    · intro hnil t hmem hprop
      have hfil : OpenCodeBridge.filtered_tasks s (some cid) (some .pending) = [] :=
        (hnil ▸ hperm.symm).eq_nil
      have : t ∈ OpenCodeBridge.filtered_tasks s (some cid) (some .pending) :=
        (mem_filtered_pending s cid hcid t).mpr ⟨hmem, hprop.1, hprop.2⟩
      rw [hfil] at this
      exact absurd this (List.not_mem_nil t)
    · intro hnone
      have hfil : OpenCodeBridge.filtered_tasks s (some cid) (some .pending) = [] := by
        rw [List.eq_nil_iff_forall_not_mem]
        intro t ht
        have := (mem_filtered_pending s cid hcid t).mp ht
        exact hnone t this.1 ⟨this.2.1, this.2.2⟩
      have := hperm
      rw [hfil] at this
      exact this.eq_nil
  · intro t ht
    rw [OpenCodeBridge.get_next_pending_task] at ht
    cases hls : OpenCodeBridge.list_tasks s (some cid) (some .pending) with
    | nil => rw [hls] at ht; exact absurd ht (by simp)
    | cons a rest =>
      rw [hls] at ht
      have hta : a = t := by simpa using ht
      subst hta
      have hmem_sorted : a ∈ OpenCodeBridge.list_tasks s (some cid) (some .pending) := by
        rw [hls]
        exact List.mem_cons_self a rest
      have hmem_fil := hperm.mem_iff.mp hmem_sorted
      have hprops := (mem_filtered_pending s cid hcid a).mp hmem_fil
      refine ⟨hprops.1, hprops.2.1, hprops.2.2, fun u humem hucid hust => ?_⟩
      have hufil : u ∈ OpenCodeBridge.filtered_tasks s (some cid) (some .pending) :=
        (mem_filtered_pending s cid hcid u).mpr ⟨humem, hucid, hust⟩
      have husorted := hperm.mem_iff.mpr hufil
      rw [hls] at husorted
      rcases List.mem_cons.mp husorted with hua | hurest
      · exact hua ▸ taskKeyLe_refl a
      · have := hsort
        rw [hls] at this
        exact (List.sorted_cons.mp this).1 u hurest

def c6_s : OpenCodeBridge.State :=
  { codebases := ["cb"]
    tasks :=
      [("t1", { id := "t1", codebase_id := "cb", title := "low", prompt := "p1",
                agent_type := "build", status := .pending, priority := 1, created_at := 0,
                started_at := none, completed_at := none, result := none, error := none,
                session_id := none, metadata := [] }),
       ("t2", { id := "t2", codebase_id := "cb", title := "high", prompt := "p2",
                agent_type := "build", status := .pending, priority := 5, created_at := 1,
                started_at := none, completed_at := none, result := none, error := none,
                session_id := none, metadata := [] })]
    codebase_tasks := [("cb", ["t1", "t2"])] }

def c6_t2 : AgentTask :=
  { id := "t2", codebase_id := "cb", title := "high", prompt := "p2",
    agent_type := "build", status := .pending, priority := 5, created_at := 1,
    started_at := none, completed_at := none, result := none, error := none,
    session_id := none, metadata := [] }

/-- Concrete instance of C6: with a priority-1 and a priority-5 pending task,
the queue pops the priority-5 task, and it is indeed pending and of the
requested codebase. -/
theorem C6_next_pending_is_best_witness :
    OpenCodeBridge.get_next_pending_task c6_s "cb" = some c6_t2 ∧
    c6_t2.codebase_id = "cb" ∧ c6_t2.status = .pending :=
  ⟨by decide,
    ((C6_next_pending_is_best c6_s "cb" (by decide)).2.1 c6_t2 (by decide)).2.1,
    ((C6_next_pending_is_best c6_s "cb" (by decide)).2.1 c6_t2 (by decide)).2.2.1⟩

/-! ## Result recording on watched completion
(`OpenCodeBridge._wait_for_agent_completion`, opencode_bridge.py:1162-1215) -/

/-- A part of the agent's final message as fetched from the session API:
`p.get("type")` and `p.get("text", "")`. Text is modelled as a sequence of
characters (Python string slicing counts code points). -/
structure ResponsePart where
  ptype : String
  text : List Char
deriving DecidableEq

namespace OpenCodeBridge

/-- opencode_bridge.py:1203-1204: the text parts of the final message joined
with a newline. -/
def completion_text (parts : List ResponsePart) : List Char :=
  List.intercalate ['\n'] ((parts.filter fun p => p.ptype == "text").map (·.text))

/-- opencode_bridge.py:1205: `task.result = "\n".join(text_parts)[:5000]` —
the stored result is the plain first-5000-characters slice. -/
def stored_result (parts : List ResponsePart) : List Char :=
  (completion_text parts).take 5000

end OpenCodeBridge

/-- The claim's (and the spec's §4.5) requirement that an over-long result be
"truncated with an indicator marking the truncation": whenever the joined
text exceeds the bound, the stored result must not be a bare prefix of the
original text — any appended indicator would distinguish the two. -/
def resultTruncationMarked (parts : List ResponsePart) : Prop :=
  5000 < (OpenCodeBridge.completion_text parts).length →
    ¬ List.IsPrefix (OpenCodeBridge.stored_result parts) (OpenCodeBridge.completion_text parts)

def c8_parts : List ResponsePart := [{ ptype := "text", text := List.replicate 5001 'x' }]

theorem completion_text_single (l : List Char) :
    OpenCodeBridge.completion_text [{ ptype := "text", text := l }] = l := by
  simp [OpenCodeBridge.completion_text, List.intercalate, List.intersperse]

theorem c8_completion_text_eq :
    OpenCodeBridge.completion_text c8_parts = List.replicate 5001 'x' :=
  completion_text_single _

/-- Claim C8 fails: on a 5001-character final message the stored result is
exactly the silent 5000-character prefix — no truncation indicator of any
kind is added. -/
theorem C8_truncation_not_marked : ¬ resultTruncationMarked c8_parts := by
  intro hmark
  refine hmark ?_ (List.take_prefix 5000 _)
  rw [c8_completion_text_eq, List.length_replicate]
  omega

/-- Claim C8, amended: the stored result is the plain prefix of the joined
final-message text cut at 5000 characters — bounded, but truncated silently
with no indicator (the stored text is always a bare prefix of the
original). -/
theorem C8_result_is_silent_prefix (parts : List ResponsePart) :
    (OpenCodeBridge.stored_result parts).length =
      min 5000 (OpenCodeBridge.completion_text parts).length ∧
    List.IsPrefix (OpenCodeBridge.stored_result parts)
      (OpenCodeBridge.completion_text parts) :=
  ⟨List.length_take 5000 _, List.take_prefix 5000 _⟩

end A2A
